import Mathlib

/-!
Shallow embedding of the ARED edge substrate node's two pallets
(`pallets/carbon-credits/src/lib.rs` and `pallets/telemetry-proofs/src/lib.rs`)
together with theorems settling the frozen claims about them.

Machine integers are modelled as `Nat` with explicit saturation or wrap:
`u128` saturating arithmetic (`saturating_add` / `saturating_mul`) caps at
`2^128 - 1`; unchecked `+= 1` on `u32` / `u64` counters wraps modulo
`2^32` / `2^64`.  Byte strings (device ids, proof hashes) are `List Nat`.
Storage maps become total functions with `ValueQuery` defaults (`0` /
`none`), mirroring the FRAME storage semantics.  Each dispatchable returns
the resulting state together with an `Option`/`Except` outcome; because
every check in the source precedes every write, the state returned on an
error is the input state, which makes "no mutation on failure" a provable
statement rather than a modelling artifact.
-/

namespace AredEdge

/-- Largest value of a `u128`; `saturating_add`/`saturating_mul` cap here. -/
def U128_MAX : Nat := 2 ^ 128 - 1

/-- Modulus for wrapping `u32` arithmetic (`count += 1` on a `u32`). -/
def U32_MOD : Nat := 2 ^ 32

/-- Modulus for wrapping `u64` arithmetic (`count += 1` on a `u64`). -/
def U64_MOD : Nat := 2 ^ 64

/-- `u128::saturating_add`. -/
def sat_add (a b : Nat) : Nat := min (a + b) U128_MAX

/-- `u128::saturating_mul`. -/
def sat_mul (a b : Nat) : Nat := min (a * b) U128_MAX

/-- `u32::saturating_add`. -/
def sat_add32 (a b : Nat) : Nat := min (a + b) (2 ^ 32 - 1)

/-- Device identifiers and proof hashes are byte sequences. -/
abbrev DeviceId := List Nat

/-! ## Carbon-credits pallet (`pallets/carbon-credits/src/lib.rs`) -/

/-- Compile-time parameters of the carbon-credits pallet's `Config` trait. -/
structure CCConfig where
  maxDeviceIdLength : Nat
  creditsPerTonCO2 : Nat
  defaultEmissionFactor : Nat
  minClaimableEnergy : Nat
deriving DecidableEq

/-- The carbon-credits pallet's storage items (lines 114-187 of the source). -/
structure CCState where
  emissionFactor : Nat
  energyAccumulated : DeviceId → Nat
  totalEnergy : DeviceId → Nat
  creditsBalance : DeviceId → Nat
  totalCreditsIssued : Nat
  totalCO2Avoided : Nat
  issuanceCount : DeviceId → Nat
  activeDeviceCount : Nat

/-- Genesis state: all maps empty (`ValueQuery` default `0`), and
`EmissionFactor` at its configured default. -/
def initCC (cfg : CCConfig) : CCState where
  emissionFactor := cfg.defaultEmissionFactor
  energyAccumulated := fun _ => 0
  totalEnergy := fun _ => 0
  creditsBalance := fun _ => 0
  totalCreditsIssued := 0
  totalCO2Avoided := 0
  issuanceCount := fun _ => 0
  activeDeviceCount := 0

/-- The carbon-credits pallet's `Error` enum. -/
inductive CCError where
  | DeviceIdTooLong
  | NoCreditsAvailable
  | InsufficientCredits
  | Overflow
  | EnergyBelowMinimum
  | SameDeviceTransfer
  | InvalidEmissionFactor
  | NotAuthorized
deriving DecidableEq

/-- Payload of the `CreditsClaimed` event. -/
structure ClaimInfo where
  credits : Nat
  energy_wh : Nat
  co2_avoided_kg : Nat
deriving DecidableEq

/-- `record_energy` (source lines 259-297).  The signed-origin check is
elided (any actor may call it); `proof_index` is unused by the source body. -/
def record_energy (cfg : CCConfig) (st : CCState) (device_id : DeviceId)
    (energy_wh : Nat) : CCState × Option CCError :=
  if device_id.length > cfg.maxDeviceIdLength then (st, some .DeviceIdTooLong)
  else if st.energyAccumulated device_id = 0 ∧ st.totalEnergy device_id = 0 then
    ({ st with
        energyAccumulated := fun d =>
          if d = device_id then sat_add (st.energyAccumulated d) energy_wh
          else st.energyAccumulated d
        totalEnergy := fun d =>
          if d = device_id then sat_add (st.totalEnergy d) energy_wh
          else st.totalEnergy d
        activeDeviceCount := (st.activeDeviceCount + 1) % U32_MOD }, none)
  else
    ({ st with
        energyAccumulated := fun d =>
          if d = device_id then sat_add (st.energyAccumulated d) energy_wh
          else st.energyAccumulated d
        totalEnergy := fun d =>
          if d = device_id then sat_add (st.totalEnergy d) energy_wh
          else st.totalEnergy d }, none)

/-- `claim_credits` (source lines 311-375).  The two `checked_div(1000)`
calls in the source divide by the nonzero constant `1000` and hence never
yield the `Overflow` error; they are embedded as plain division. -/
def claim_credits (cfg : CCConfig) (st : CCState) (device_id : DeviceId) :
    CCState × Except CCError ClaimInfo :=
  if device_id.length > cfg.maxDeviceIdLength then (st, .error .DeviceIdTooLong)
  else if st.energyAccumulated device_id = 0 then (st, .error .NoCreditsAvailable)
  else if st.energyAccumulated device_id < cfg.minClaimableEnergy then
    (st, .error .EnergyBelowMinimum)
  else if sat_mul (st.energyAccumulated device_id / 1000) st.emissionFactor / 1000 = 0 then
    (st, .error .NoCreditsAvailable)
  else if sat_mul (sat_mul (st.energyAccumulated device_id / 1000) st.emissionFactor / 1000)
      cfg.creditsPerTonCO2 / 1000 = 0 then
    (st, .error .NoCreditsAvailable)
  else
    ({ st with
        creditsBalance := fun d =>
          if d = device_id then
            sat_add (st.creditsBalance d)
              (sat_mul (sat_mul (st.energyAccumulated device_id / 1000) st.emissionFactor / 1000)
                cfg.creditsPerTonCO2 / 1000)
          else st.creditsBalance d
        totalCreditsIssued :=
          sat_add st.totalCreditsIssued
            (sat_mul (sat_mul (st.energyAccumulated device_id / 1000) st.emissionFactor / 1000)
              cfg.creditsPerTonCO2 / 1000)
        totalCO2Avoided :=
          sat_add st.totalCO2Avoided
            (sat_mul (st.energyAccumulated device_id / 1000) st.emissionFactor / 1000)
        issuanceCount := fun d =>
          if d = device_id then sat_add32 (st.issuanceCount d) 1 else st.issuanceCount d
        energyAccumulated := fun d =>
          if d = device_id then 0 else st.energyAccumulated d },
      .ok
        { credits :=
            sat_mul (sat_mul (st.energyAccumulated device_id / 1000) st.emissionFactor / 1000)
              cfg.creditsPerTonCO2 / 1000
          energy_wh := st.energyAccumulated device_id
          co2_avoided_kg :=
            sat_mul (st.energyAccumulated device_id / 1000) st.emissionFactor / 1000 })

/-- `transfer_credits` (source lines 387-419).  The source mutates the
sender's balance first and then the recipient's; the two keys are distinct
by the `SameDeviceTransfer` guard, so a single combined map update is the
same function.  `saturating_sub` is `Nat` subtraction. -/
def transfer_credits (cfg : CCConfig) (st : CCState) (from_device to_device : DeviceId)
    (amount : Nat) : CCState × Option CCError :=
  if from_device.length > cfg.maxDeviceIdLength then (st, some .DeviceIdTooLong)
  else if to_device.length > cfg.maxDeviceIdLength then (st, some .DeviceIdTooLong)
  else if from_device = to_device then (st, some .SameDeviceTransfer)
  else if st.creditsBalance from_device < amount then (st, some .InsufficientCredits)
  else
    ({ st with
        creditsBalance := fun d =>
          if d = from_device then st.creditsBalance from_device - amount
          else if d = to_device then sat_add (st.creditsBalance to_device) amount
          else st.creditsBalance d }, none)

/-- `calculate_credits` (source lines 506-515), the pure preview helper:
`saturating_div(1000)` on the nonzero constant is plain division. -/
def calculate_credits (cfg : CCConfig) (st : CCState) (energy_wh : Nat) : Nat :=
  sat_mul (sat_mul (energy_wh / 1000) st.emissionFactor / 1000) cfg.creditsPerTonCO2 / 1000

/-- Credits awarded by a claim, as a function of the pending energy and the
emission factor alone (the shape of the arithmetic in `claim_credits`). -/
def credits_formula (cfg : CCConfig) (ef pending : Nat) : Nat :=
  sat_mul (sat_mul (pending / 1000) ef / 1000) cfg.creditsPerTonCO2 / 1000

/-! ## Telemetry-proofs pallet (`pallets/telemetry-proofs/src/lib.rs`) -/

/-- Compile-time parameters of the telemetry-proofs pallet's `Config` trait. -/
structure TPConfig where
  maxDeviceIdLength : Nat
  maxProofLength : Nat
  maxBatchSize : Nat
  maxProofsPerDevice : Nat
deriving DecidableEq

/-- `ProofMetadata` (source lines 57-72). -/
structure ProofMetadata where
  proof_hash : DeviceId
  block_number : Nat
  timestamp : Nat
  record_count : Nat
  window_start : Nat
  window_end : Nat
deriving DecidableEq

/-- The telemetry-proofs pallet's storage items (source lines 103-149). -/
structure TPState where
  proofs : DeviceId → Nat → Option ProofMetadata
  proofsByBlock : Nat → DeviceId → Option DeviceId
  proofCount : DeviceId → Nat
  totalProofs : Nat
  latestProofBlock : DeviceId → Option Nat

/-- Genesis state of the telemetry-proofs pallet. -/
def initTP : TPState where
  proofs := fun _ _ => none
  proofsByBlock := fun _ _ => none
  proofCount := fun _ => 0
  totalProofs := 0
  latestProofBlock := fun _ => none

/-- The telemetry-proofs pallet's `Error` enum. -/
inductive TPError where
  | DeviceIdTooLong
  | ProofTooLong
  | ProofAlreadyExists
  | BatchTooLarge
  | EmptyBatch
  | MaxProofsExceeded
  | ProofNotFound
  | InvalidTimeWindow
deriving DecidableEq

/-- The five storage writes shared verbatim by `submit_proof`,
`submit_proof_unsigned` and both batch loops (e.g. source lines 263-269):
store the metadata at index `proofCount device_id`, index the hash by
block, bump the per-device and global counters, and record the latest
block. -/
def store_proof (st : TPState) (block ts : Nat) (device_id proof_hash : DeviceId)
    (record_count window_start window_end : Nat) : TPState where
  proofs := fun d i =>
    if d = device_id ∧ i = st.proofCount device_id then
      some
        { proof_hash := proof_hash
          block_number := block
          timestamp := ts
          record_count := record_count
          window_start := window_start
          window_end := window_end }
    else st.proofs d i
  proofsByBlock := fun b d =>
    if b = block ∧ d = device_id then some proof_hash else st.proofsByBlock b d
  proofCount := fun d =>
    if d = device_id then (st.proofCount d + 1) % U64_MOD else st.proofCount d
  totalProofs := (st.totalProofs + 1) % U64_MOD
  latestProofBlock := fun d =>
    if d = device_id then some block else st.latestProofBlock d

/-- `submit_proof` (source lines 217-279).  `block` and `ts` are the
current block height and timestamp supplied by the external oracle; the
`Ok` payload is the assigned proof index (the `ProofSubmitted` event's
`proof_index` field). -/
def submit_proof (cfg : TPConfig) (st : TPState) (block ts : Nat)
    (device_id proof_hash : DeviceId) (record_count window_start window_end : Nat) :
    TPState × Except TPError Nat :=
  if ¬ window_start < window_end then (st, .error .InvalidTimeWindow)
  else if device_id.length > cfg.maxDeviceIdLength then (st, .error .DeviceIdTooLong)
  else if proof_hash.length > cfg.maxProofLength then (st, .error .ProofTooLong)
  else if ¬ st.proofCount device_id < cfg.maxProofsPerDevice then
    (st, .error .MaxProofsExceeded)
  else if (st.proofsByBlock block device_id).isSome then (st, .error .ProofAlreadyExists)
  else
    (store_proof st block ts device_id proof_hash record_count window_start window_end,
      .ok (st.proofCount device_id))

/-- `submit_proof_unsigned` (source lines 436-498): its body is identical
to `submit_proof` apart from the origin check (`ensure_none` instead of
`ensure_signed`), which the embedding elides. -/
def submit_proof_unsigned (cfg : TPConfig) (st : TPState) (block ts : Nat)
    (device_id proof_hash : DeviceId) (record_count window_start window_end : Nat) :
    TPState × Except TPError Nat :=
  submit_proof cfg st block ts device_id proof_hash record_count window_start window_end

/-- One batch entry: `(device_id, proof_hash, record_count, window_start, window_end)`. -/
abbrev BatchEntry := DeviceId × DeviceId × Nat × Nat × Nat

/-- The loop body shared by `submit_batch_proofs` (source lines 307-360)
and `submit_batch_proofs_unsigned` (source lines 527-579): validate one
entry with the `continue`-on-failure policy and store it when it passes.
Returns the new state and whether the entry was accepted. -/
def batch_entry_step (cfg : TPConfig) (block ts : Nat) (st : TPState) (e : BatchEntry) :
    TPState × Bool :=
  if e.2.2.2.1 ≥ e.2.2.2.2 then (st, false)
  else if e.1.length > cfg.maxDeviceIdLength then (st, false)
  else if e.2.1.length > cfg.maxProofLength then (st, false)
  else if st.proofCount e.1 ≥ cfg.maxProofsPerDevice then (st, false)
  else if (st.proofsByBlock block e.1).isSome then (st, false)
  else (store_proof st block ts e.1 e.2.1 e.2.2.1 e.2.2.2.1 e.2.2.2.2, true)

/-- One fold step of the batch loop: thread the state through
`batch_entry_step` and count the entry when it was accepted. -/
def batch_fold_step (cfg : TPConfig) (block ts : Nat) (acc : TPState × Nat)
    (e : BatchEntry) : TPState × Nat :=
  ((batch_entry_step cfg block ts acc.1 e).1,
    acc.2 + if (batch_entry_step cfg block ts acc.1 e).2 then 1 else 0)

/-- Fold of `batch_entry_step` over a batch, threading the state and
counting accepted entries (the `successful_count` of the unsigned loop). -/
def run_batch (cfg : TPConfig) (block ts : Nat) (st : TPState) (entries : List BatchEntry) :
    TPState × Nat :=
  entries.foldl (batch_fold_step cfg block ts) (st, 0)

/-- `submit_batch_proofs` (source lines 292-369).  The `Ok` payload is the
`proof_count` field of the `BatchProofsSubmitted` event, which the signed
variant sets to `batch_len` — the number of entries submitted. -/
def submit_batch_proofs (cfg : TPConfig) (st : TPState) (block ts : Nat)
    (entries : List BatchEntry) : TPState × Except TPError Nat :=
  if entries.length = 0 then (st, .error .EmptyBatch)
  else if entries.length > cfg.maxBatchSize then (st, .error .BatchTooLarge)
  else ((run_batch cfg block ts st entries).1, .ok entries.length)

/-- `submit_batch_proofs_unsigned` (source lines 511-587).  The `Ok`
payload is the `proof_count` field of the `UnsignedBatchProofsSubmitted`
event, which this variant sets to `successful_count` — the number of
entries actually accepted. -/
def submit_batch_proofs_unsigned (cfg : TPConfig) (st : TPState) (block ts : Nat)
    (entries : List BatchEntry) : TPState × Except TPError Nat :=
  if entries.length = 0 then (st, .error .EmptyBatch)
  else if entries.length > cfg.maxBatchSize then (st, .error .BatchTooLarge)
  else ((run_batch cfg block ts st entries).1, .ok (run_batch cfg block ts st entries).2)

/-- `get_device_proofs` (source lines 607-614). -/
def get_device_proofs (st : TPState) (device_id : DeviceId) : List ProofMetadata :=
  (List.range (st.proofCount device_id)).filterMap (fun i => st.proofs device_id i)

/-- `proof_exists` (source lines 617-630): linear scan over the device's
proof indices, matching on the hash. -/
def proof_exists (st : TPState) (device_id proof_hash : DeviceId) : Bool :=
  (List.range (st.proofCount device_id)).any fun i =>
    match st.proofs device_id i with
    | some m => m.proof_hash == proof_hash
    | none => false

/-- `get_proofs_in_window` (source lines 633-643): iterate the device's
indices, keep the stored records, and filter by full containment of the
record's window in the query window. -/
def get_proofs_in_window (st : TPState) (device_id : DeviceId) (start_time end_time : Nat) :
    List ProofMetadata :=
  ((List.range (st.proofCount device_id)).filterMap (fun i => st.proofs device_id i)).filter
    (fun m => decide (m.window_start ≥ start_time) && decide (m.window_end ≤ end_time))

/-! ### The unsigned-transaction admission predicate -/

/-- `sp_runtime::transaction_validity::TransactionSource`. -/
inductive TxSource where
  | External
  | InBlock
  | Local
deriving DecidableEq

/-- The calls `validate_unsigned` can receive (source lines 657-706): the
two unsigned submissions, and `other` for every remaining call of the
pallet (the `_ => InvalidTransaction::Call` arm). -/
inductive TPCall where
  | proof_unsigned (device_id proof_hash : DeviceId)
      (record_count window_start window_end : Nat)
  | batch_unsigned (entries : List BatchEntry)
  | other
deriving DecidableEq

/-- `sp_runtime::transaction_validity::InvalidTransaction`, restricted to
the variants the source produces. -/
inductive InvalidTx where
  | BadSigner
  | Custom (n : Nat)
  | Call
deriving DecidableEq

/-- The fields of the `ValidTransaction` the source builds. -/
structure ValidTx where
  tagPfx : String
  priority : Nat
  longevity : Nat
  provides : DeviceId × DeviceId
  propagates : Bool
deriving DecidableEq

/-- `validate_unsigned` (source lines 650-708).  A pure function of the
source and the call: it takes no `TPState`, mirroring that the Rust code
reads no storage item. -/
def validate_unsigned (cfg : TPConfig) (source : TxSource) (call : TPCall) :
    Except InvalidTx ValidTx :=
  if ¬ (source = TxSource.Local ∨ source = TxSource.InBlock) then .error .BadSigner
  else
    match call with
    | .proof_unsigned device_id proof_hash _ window_start window_end =>
      if device_id.length > cfg.maxDeviceIdLength then .error (.Custom 1)
      else if proof_hash.length > cfg.maxProofLength then .error (.Custom 2)
      else if window_start ≥ window_end then .error (.Custom 3)
      else
        .ok
          { tagPfx := "TelemetryProof"
            priority := 100
            longevity := 5
            provides := (device_id, proof_hash)
            propagates := false }
    | .batch_unsigned entries =>
      if entries.isEmpty then .error (.Custom 4)
      else if entries.length > cfg.maxBatchSize then .error (.Custom 5)
      else
        .ok
          { tagPfx := "TelemetryProofBatch"
            priority := 100
            longevity := 5
            provides :=
              ((entries.head?.map (fun p => p.1)).getD [],
                (entries.getLast?.map (fun p => p.2.1)).getD [])
            propagates := false }
    | .other => .error .Call

/-! ### Operation sequences over the proof store (for the reachability
invariants) -/

/-- One externally sequenced mutating call of the telemetry-proofs pallet,
carrying the block height and timestamp the oracle supplies for it. -/
inductive TPOp where
  | submit (block ts : Nat) (device_id proof_hash : DeviceId)
      (record_count window_start window_end : Nat)
  | submitUnsigned (block ts : Nat) (device_id proof_hash : DeviceId)
      (record_count window_start window_end : Nat)
  | batch (block ts : Nat) (entries : List BatchEntry)
  | batchUnsigned (block ts : Nat) (entries : List BatchEntry)

/-- Apply one call to the store, keeping the resulting state (on a failed
call the state is unchanged). -/
def applyOp (cfg : TPConfig) (st : TPState) (op : TPOp) : TPState :=
  match op with
  | .submit block ts d h rc ws we => (submit_proof cfg st block ts d h rc ws we).1
  | .submitUnsigned block ts d h rc ws we =>
    (submit_proof_unsigned cfg st block ts d h rc ws we).1
  | .batch block ts entries => (submit_batch_proofs cfg st block ts entries).1
  | .batchUnsigned block ts entries =>
    (submit_batch_proofs_unsigned cfg st block ts entries).1

/-- A sequence of calls starting from genesis. -/
def runOps (cfg : TPConfig) (ops : List TPOp) : TPState :=
  ops.foldl (applyOp cfg) initTP

/-- Density of the proof store: an index holds a record exactly when it is
below the device's proof count. -/
def Dense (st : TPState) : Prop :=
  ∀ d i, (st.proofs d i).isSome ↔ i < st.proofCount d

/-! ### Concrete instances used by witnesses and counterexamples -/

deriving instance DecidableEq for Except

/-- The carbon-credits configuration of the runtime (`runtime/src/lib.rs`
lines 259-268): `MaxDeviceIdLength = 64`, `CreditsPerTonCO2 = 1000`,
`DefaultEmissionFactor = 1500`, `MinClaimableEnergy = 1000`. -/
def ccCfgRt : CCConfig := ⟨64, 1000, 1500, 1000⟩

/-- The telemetry-proofs configuration of the runtime (`runtime/src/lib.rs`
lines 245-251): `MaxDeviceIdLength = 64`, `MaxProofLength = 128`,
`MaxBatchSize = 100`, `MaxProofsPerDevice = 10000`. -/
def tpCfgRt : TPConfig := ⟨64, 128, 100, 10000⟩

/-- A state in which two devices both hold the maximal `u128` balance. -/
def stSaturated : CCState :=
  { initCC ccCfgRt with
      creditsBalance := fun d => if d = [0] ∨ d = [1] then U128_MAX else 0 }

/-- A three-entry batch whose middle entry has `window_start ≥ window_end`. -/
def b3entries : List BatchEntry :=
  [([1], [10], 10, 1000, 2000), ([2], [20], 20, 3000, 2000), ([3], [30], 30, 3000, 4000)]

/-- A store holding three proofs for device `[1]` with windows
`[1000,2000]`, `[2000,3000]` and `[5000,6000]`, submitted at blocks
`1`, `2`, `3`. -/
def c6state : TPState :=
  (submit_proof tpCfgRt
    (submit_proof tpCfgRt
      (submit_proof tpCfgRt initTP 1 0 [1] [10] 10 1000 2000).1
      2 0 [1] [20] 10 2000 3000).1
    3 0 [1] [30] 10 5000 6000).1

/-! ## Helper lemmas -/

lemma sat_add_pos_left (a b : Nat) (h : 0 < a) : 0 < sat_add a b := by
  have hM : (0 : Nat) < U128_MAX := by norm_num [U128_MAX]
  simp only [sat_add]
  omega

lemma sat_add_pos_right (a b : Nat) (h : 0 < b) : 0 < sat_add a b := by
  have hM : (0 : Nat) < U128_MAX := by norm_num [U128_MAX]
  simp only [sat_add]
  omega

/-! ## Claims about the carbon-credits pallet -/

/-- Claim C1: for every device, after `record_energy` of 10000 Wh followed
by `claim_credits` under the default parameters (`EmissionFactor = 1500`,
`CreditsPerTonCO2 = 1000`, `MinClaimableEnergy = 1000`), the claim
succeeds and awards exactly 15 credits to the device's `CreditsBalance`,
adds exactly 15 (scaled) kg to `TotalCO2Avoided`, resets the device's
pending energy (`EnergyAccumulated`) to 0, and leaves its lifetime energy
(`TotalEnergy`) equal to 10000. -/
theorem C1_record_then_claim_defaults (cfg : CCConfig)
    (hEF : cfg.defaultEmissionFactor = 1500) (hCPT : cfg.creditsPerTonCO2 = 1000)
    (hMin : cfg.minClaimableEnergy = 1000)
    (d : DeviceId) (hd : d.length ≤ cfg.maxDeviceIdLength) :
    (record_energy cfg (initCC cfg) d 10000).2 = none ∧
    (claim_credits cfg (record_energy cfg (initCC cfg) d 10000).1 d).2 =
      Except.ok ⟨15, 10000, 15⟩ ∧
    (claim_credits cfg (record_energy cfg (initCC cfg) d 10000).1 d).1.creditsBalance d = 15 ∧
    (claim_credits cfg (record_energy cfg (initCC cfg) d 10000).1 d).1.totalCO2Avoided = 15 ∧
    (claim_credits cfg (record_energy cfg (initCC cfg) d 10000).1 d).1.energyAccumulated d = 0 ∧
    (claim_credits cfg (record_energy cfg (initCC cfg) d 10000).1 d).1.totalEnergy d = 10000 := by
  have hnd : ¬ d.length > cfg.maxDeviceIdLength := Nat.not_lt.mpr hd
  norm_num [record_energy, claim_credits, initCC, sat_add, sat_mul, sat_add32, U128_MAX,
    hnd, hEF, hCPT, hMin]

/-- Witness for C1 at the runtime configuration and device `[0]`. -/
theorem C1_record_then_claim_defaults_witness :
    (claim_credits ccCfgRt (record_energy ccCfgRt (initCC ccCfgRt) [0] 10000).1 [0]).2 =
      Except.ok ⟨15, 10000, 15⟩ :=
  (C1_record_then_claim_defaults ccCfgRt rfl rfl rfl [0] (by decide)).2.1

/-- Claim C2: `claim_credits` never awards zero credits.  If the device's
pending energy is zero the call fails with `NoCreditsAvailable` and leaves
the state unchanged; if (past the minimum-energy check) the computed CO2
or the computed credits truncates to 0, the call fails with
`NoCreditsAvailable` and leaves the state unchanged; and a successful
claim always awards a strictly positive credit amount that is the fixed
function `credits_formula` of the pending energy and the current emission
factor. -/
theorem C2_no_zero_credit_claims (cfg : CCConfig) (st : CCState) (d : DeviceId)
    (hd : d.length ≤ cfg.maxDeviceIdLength) :
    (st.energyAccumulated d = 0 →
      claim_credits cfg st d = (st, Except.error CCError.NoCreditsAvailable)) ∧
    (st.energyAccumulated d ≠ 0 → cfg.minClaimableEnergy ≤ st.energyAccumulated d →
      (sat_mul (st.energyAccumulated d / 1000) st.emissionFactor / 1000 = 0 ∨
        credits_formula cfg st.emissionFactor (st.energyAccumulated d) = 0) →
      claim_credits cfg st d = (st, Except.error CCError.NoCreditsAvailable)) ∧
    (∀ st2 info, claim_credits cfg st d = (st2, Except.ok info) →
      0 < info.credits ∧
      info.credits = credits_formula cfg st.emissionFactor (st.energyAccumulated d)) := by
  have hnd : ¬ d.length > cfg.maxDeviceIdLength := Nat.not_lt.mpr hd
  refine ⟨fun h0 => by simp [claim_credits, hnd, h0], ?_, ?_⟩
  · intro h0 hmin hz
    have hmin2 : ¬ st.energyAccumulated d < cfg.minClaimableEnergy := Nat.not_lt.mpr hmin
    rcases hz with hz | hz
    · simp [claim_credits, hnd, h0, hmin2, hz]
    · by_cases hco2 : sat_mul (st.energyAccumulated d / 1000) st.emissionFactor / 1000 = 0
      · simp [claim_credits, hnd, h0, hmin2, hco2]
      · simp only [credits_formula] at hz
        simp [claim_credits, hnd, h0, hmin2, hco2, hz]
  · intro st2 info hok
    simp only [claim_credits] at hok
    split_ifs at hok with h2 h3 h4 h5
    · simp at hok
    · simp at hok
    · simp at hok
    · simp at hok
    · rw [Prod.mk.injEq] at hok
      obtain ⟨hA, hB⟩ := hok
      injection hB with hC
      subst hC
      exact ⟨Nat.pos_of_ne_zero h5, rfl⟩

/-- Witness for C2: a claim with no pending energy fails with
`NoCreditsAvailable` and does not change the state. -/
theorem C2_no_zero_credit_claims_witness :
    claim_credits ccCfgRt (initCC ccCfgRt) [0] =
      (initCC ccCfgRt, Except.error CCError.NoCreditsAvailable) :=
  (C2_no_zero_credit_claims ccCfgRt (initCC ccCfgRt) [0] (by decide)).1 rfl

/-- Claim C8: the pure helper `calculate_credits` returns exactly the
credit amount that `claim_credits` computes and awards from the same
pending energy under the same emission factor: on any successful claim the
event payload equals `calculate_credits` of the pending energy, and the
device balance is credited by exactly that amount. -/
theorem C8_calculate_credits_refines_claim (cfg : CCConfig) (st : CCState) (d : DeviceId)
    (e : Nat) (hpend : st.energyAccumulated d = e) (info : ClaimInfo)
    (hok : (claim_credits cfg st d).2 = Except.ok info) :
    info.credits = calculate_credits cfg st e ∧
    (claim_credits cfg st d).1.creditsBalance d =
      sat_add (st.creditsBalance d) (calculate_credits cfg st e) := by
  subst hpend
  simp only [claim_credits] at hok ⊢
  split_ifs at hok ⊢ with h1 h2 h3 h4 h5
  any_goals (simp at hok)
  subst hok
  exact ⟨rfl, by simp [calculate_credits]⟩

/-- Witness for C8 on a concrete successful claim of 10000 Wh. -/
theorem C8_calculate_credits_refines_claim_witness :
    (15 : Nat) =
      calculate_credits ccCfgRt (record_energy ccCfgRt (initCC ccCfgRt) [0] 10000).1 10000 ∧
    (claim_credits ccCfgRt (record_energy ccCfgRt (initCC ccCfgRt) [0] 10000).1 [0]).1.creditsBalance
        [0] =
      sat_add ((record_energy ccCfgRt (initCC ccCfgRt) [0] 10000).1.creditsBalance [0])
        (calculate_credits ccCfgRt (record_energy ccCfgRt (initCC ccCfgRt) [0] 10000).1 10000) :=
  C8_calculate_credits_refines_claim ccCfgRt
    (record_energy ccCfgRt (initCC ccCfgRt) [0] 10000).1 [0] 10000 (by decide)
    ⟨15, 10000, 15⟩ (by decide)

/-- Counterexample to claim C4 as stated: `record_energy` accepts
`energy_wh = 0`, and a first record of 0 Wh leaves both `pending_wh` and
`lifetime_wh` at zero, so the very next `record_energy` call for the same
device increments `ActiveDeviceCount` again — from 1 to 2. -/
theorem C4_active_device_count_cex :
    (record_energy ccCfgRt (initCC ccCfgRt) [0] 0).1.activeDeviceCount = 1 ∧
    (record_energy ccCfgRt
        (record_energy ccCfgRt (initCC ccCfgRt) [0] 0).1 [0] 0).1.activeDeviceCount = 2 := by
  decide

/-- Claim C4 (amended): `record_energy` bumps `ActiveDeviceCount` (by one,
wrapping `u32` arithmetic) exactly when both the device's pending and
lifetime energy are zero immediately before the call, and leaves it
unchanged otherwise.  The "at most once per device" guarantee therefore
holds as soon as the device's lifetime energy is positive — which a first
record with positive `energy_wh` establishes and every later call
preserves — but not for a device whose records so far were all 0 Wh. -/
theorem C4_active_device_count_amended (cfg : CCConfig) (st : CCState) (d : DeviceId)
    (e : Nat) (hd : d.length ≤ cfg.maxDeviceIdLength) :
    (st.energyAccumulated d = 0 ∧ st.totalEnergy d = 0 →
      (record_energy cfg st d e).1.activeDeviceCount = (st.activeDeviceCount + 1) % U32_MOD) ∧
    (¬ (st.energyAccumulated d = 0 ∧ st.totalEnergy d = 0) →
      (record_energy cfg st d e).1.activeDeviceCount = st.activeDeviceCount) ∧
    (0 < st.totalEnergy d →
      (record_energy cfg st d e).1.activeDeviceCount = st.activeDeviceCount) ∧
    (0 < e → 0 < (record_energy cfg st d e).1.totalEnergy d) ∧
    (∀ d2 e2, 0 < st.totalEnergy d → 0 < (record_energy cfg st d2 e2).1.totalEnergy d) := by
  have hnd : ¬ d.length > cfg.maxDeviceIdLength := Nat.not_lt.mpr hd
  refine ⟨?_, ?_, ?_, ?_, ?_⟩
  · intro hz
    simp [record_energy, hnd, hz]
  · intro hz
    simp [record_energy, hnd, hz]
  · intro hpos
    have hz : ¬ (st.energyAccumulated d = 0 ∧ st.totalEnergy d = 0) := by
      rintro ⟨-, h2⟩
      omega
    simp [record_energy, hnd, hz]
  · intro he
    by_cases hz : st.energyAccumulated d = 0 ∧ st.totalEnergy d = 0 <;>
      simp [record_energy, hnd, hz] <;>
      exact sat_add_pos_right _ _ he
  · intro d2 e2 hpos
    by_cases hd2 : d2.length > cfg.maxDeviceIdLength
    · simpa [record_energy, hd2] using hpos
    · by_cases hz : st.energyAccumulated d2 = 0 ∧ st.totalEnergy d2 = 0 <;>
        simp [record_energy, hd2, hz] <;>
        by_cases hdd : d = d2 <;>
        simp [hdd] <;>
        first
          | exact sat_add_pos_left _ _ (hdd ▸ hpos)
          | exact hpos

/-- Witness for the amended C4: after a first record of 10000 Wh for
device `[0]`, a further record does not change `ActiveDeviceCount`. -/
theorem C4_active_device_count_amended_witness :
    (record_energy ccCfgRt
        (record_energy ccCfgRt (initCC ccCfgRt) [0] 10000).1 [0] 5).1.activeDeviceCount =
      (record_energy ccCfgRt (initCC ccCfgRt) [0] 10000).1.activeDeviceCount :=
  (C4_active_device_count_amended ccCfgRt
    (record_energy ccCfgRt (initCC ccCfgRt) [0] 10000).1 [0] 5 (by decide)).2.2.1 (by decide)

/-- Counterexample to claim C7 as stated: the recipient's balance is
updated with `saturating_add`, so when it is already at `u128::MAX` a
successful transfer destroys the transferred amount instead of conserving
the two-balance total. -/
theorem C7_transfer_conservation_cex :
    (transfer_credits ccCfgRt stSaturated [0] [1] 1).2 = none ∧
    ¬ ((transfer_credits ccCfgRt stSaturated [0] [1] 1).1.creditsBalance [0] +
        (transfer_credits ccCfgRt stSaturated [0] [1] 1).1.creditsBalance [1] =
      stSaturated.creditsBalance [0] + stSaturated.creditsBalance [1]) := by
  decide

/-- Claim C7 (amended): `transfer_credits` requires distinct devices (else
`SameDeviceTransfer`) and a sufficient sender balance (else
`InsufficientCredits`); a successful transfer debits the sender by
`amount`, credits the recipient with `saturating_add`, changes no other
balance, and conserves the two-balance total provided the recipient's
balance plus `amount` does not exceed `u128::MAX` (without that proviso
the credit saturates and the total shrinks). -/
theorem C7_transfer_conservation_amended (cfg : CCConfig) (st : CCState)
    (f t : DeviceId) (amount : Nat)
    (hf : f.length ≤ cfg.maxDeviceIdLength) (ht : t.length ≤ cfg.maxDeviceIdLength) :
    (f = t → transfer_credits cfg st f t amount = (st, some CCError.SameDeviceTransfer)) ∧
    (f ≠ t → st.creditsBalance f < amount →
      transfer_credits cfg st f t amount = (st, some CCError.InsufficientCredits)) ∧
    (f ≠ t → amount ≤ st.creditsBalance f →
      (transfer_credits cfg st f t amount).2 = none ∧
      (transfer_credits cfg st f t amount).1.creditsBalance f =
        st.creditsBalance f - amount ∧
      (transfer_credits cfg st f t amount).1.creditsBalance t =
        sat_add (st.creditsBalance t) amount ∧
      (st.creditsBalance t + amount ≤ U128_MAX →
        (transfer_credits cfg st f t amount).1.creditsBalance f +
            (transfer_credits cfg st f t amount).1.creditsBalance t =
          st.creditsBalance f + st.creditsBalance t) ∧
      (∀ d2, d2 ≠ f → d2 ≠ t →
        (transfer_credits cfg st f t amount).1.creditsBalance d2 = st.creditsBalance d2)) := by
  have hnf : ¬ f.length > cfg.maxDeviceIdLength := Nat.not_lt.mpr hf
  have hnt : ¬ t.length > cfg.maxDeviceIdLength := Nat.not_lt.mpr ht
  refine ⟨?_, ?_, ?_⟩
  · intro hft
    simp [transfer_credits, hnf, hnt, hft]
  · intro hft hbal
    simp [transfer_credits, hnf, hnt, hft, hbal]
  · intro hft hbal
    have hbal2 : ¬ st.creditsBalance f < amount := Nat.not_lt.mpr hbal
    have htf : t ≠ f := Ne.symm hft
    refine ⟨?_, ?_, ?_, ?_, ?_⟩
    · simp [transfer_credits, hnf, hnt, hft, hbal2]
    · simp [transfer_credits, hnf, hnt, hft, hbal2]
    · simp [transfer_credits, hnf, hnt, hft, hbal2, htf]
    · intro hroom
      have hs : sat_add (st.creditsBalance t) amount = st.creditsBalance t + amount :=
        min_eq_left hroom
      simp [transfer_credits, hnf, hnt, hft, hbal2, htf, hs]
      omega
    · intro d2 h2f h2t
      simp [transfer_credits, hnf, hnt, hft, hbal2, h2f, h2t]

/-- Witness for the amended C7: a successful zero-amount transfer between
two fresh devices conserves the two balances. -/
theorem C7_transfer_conservation_amended_witness :
    (transfer_credits ccCfgRt (initCC ccCfgRt) [0] [1] 0).1.creditsBalance [0] +
        (transfer_credits ccCfgRt (initCC ccCfgRt) [0] [1] 0).1.creditsBalance [1] =
      (initCC ccCfgRt).creditsBalance [0] + (initCC ccCfgRt).creditsBalance [1] :=
  ((C7_transfer_conservation_amended ccCfgRt (initCC ccCfgRt) [0] [1] 0
    (by decide) (by decide)).2.2 (by decide) (by decide)).2.2.2.1 (by decide)

/-! ## Claims about the telemetry-proofs pallet -/

/-- Claim C5: `submit_proof` validates, in this order: the time window
(else `InvalidTimeWindow`), the device-id length (else `DeviceIdTooLong`),
the proof-hash length (else `ProofTooLong`), the per-device cap (else
`MaxProofsExceeded`), and duplicate submission at the current block (else
`ProofAlreadyExists`); any failure leaves the state unchanged.  For a
fresh device, two calls at the same block height make the second fail with
`ProofAlreadyExists`, while calls at two different heights both succeed
and leave the proof count at 2. -/
theorem C5_submit_proof_validation (cfg : TPConfig) (st : TPState) (block ts : Nat)
    (d h : DeviceId) (rc ws we : Nat) :
    (¬ ws < we →
      submit_proof cfg st block ts d h rc ws we = (st, Except.error TPError.InvalidTimeWindow)) ∧
    (ws < we → d.length > cfg.maxDeviceIdLength →
      submit_proof cfg st block ts d h rc ws we = (st, Except.error TPError.DeviceIdTooLong)) ∧
    (ws < we → d.length ≤ cfg.maxDeviceIdLength → h.length > cfg.maxProofLength →
      submit_proof cfg st block ts d h rc ws we = (st, Except.error TPError.ProofTooLong)) ∧
    (ws < we → d.length ≤ cfg.maxDeviceIdLength → h.length ≤ cfg.maxProofLength →
      ¬ st.proofCount d < cfg.maxProofsPerDevice →
      submit_proof cfg st block ts d h rc ws we = (st, Except.error TPError.MaxProofsExceeded)) ∧
    (ws < we → d.length ≤ cfg.maxDeviceIdLength → h.length ≤ cfg.maxProofLength →
      st.proofCount d < cfg.maxProofsPerDevice → (st.proofsByBlock block d).isSome →
      submit_proof cfg st block ts d h rc ws we = (st, Except.error TPError.ProofAlreadyExists)) ∧
    (∀ er, (submit_proof cfg st block ts d h rc ws we).2 = Except.error er →
      (submit_proof cfg st block ts d h rc ws we).1 = st) ∧
    (ws < we → d.length ≤ cfg.maxDeviceIdLength → h.length ≤ cfg.maxProofLength →
      2 ≤ cfg.maxProofsPerDevice → st.proofCount d = 0 → st.proofsByBlock block d = none →
      (submit_proof cfg st block ts d h rc ws we).2 = Except.ok 0 ∧
      (submit_proof cfg (submit_proof cfg st block ts d h rc ws we).1 block ts d h rc ws we).2 =
        Except.error TPError.ProofAlreadyExists) ∧
    (∀ b2, block ≠ b2 → ws < we → d.length ≤ cfg.maxDeviceIdLength →
      h.length ≤ cfg.maxProofLength → 2 ≤ cfg.maxProofsPerDevice → st.proofCount d = 0 →
      st.proofsByBlock block d = none → st.proofsByBlock b2 d = none →
      (submit_proof cfg (submit_proof cfg st block ts d h rc ws we).1 b2 ts d h rc ws
          we).2 = Except.ok 1 ∧
      (submit_proof cfg (submit_proof cfg st block ts d h rc ws we).1 b2 ts d h rc ws
          we).1.proofCount d = 2) := by
  refine ⟨?_, ?_, ?_, ?_, ?_, ?_, ?_, ?_⟩
  · intro hw
    simp [submit_proof, hw]
  · intro hw hd2
    simp [submit_proof, hw, hd2]
  · intro hw hd2 hh
    simp [submit_proof, hw, Nat.not_lt.mpr hd2, hh]
  · intro hw hd2 hh hcnt
    simp [submit_proof, hw, Nat.not_lt.mpr hd2, Nat.not_lt.mpr hh, hcnt]
  · intro hw hd2 hh hcnt hblk
    simp [submit_proof, hw, Nat.not_lt.mpr hd2, Nat.not_lt.mpr hh, hcnt, hblk]
  · intro er her
    simp only [submit_proof] at her ⊢
    split_ifs at her ⊢ <;> rfl
  · intro hw hd2 hh hmax hcnt hblk
    have hlt : st.proofCount d < cfg.maxProofsPerDevice := by omega
    have hmax0 : ¬ cfg.maxProofsPerDevice = 0 := by omega
    have h1m : (1 : Nat) % U64_MOD = 1 := by norm_num [U64_MOD]
    constructor
    · simp [submit_proof, hw, Nat.not_lt.mpr hd2, Nat.not_lt.mpr hh, hlt, hblk, hcnt, hmax0]
    · simp [submit_proof, store_proof, hw, Nat.not_lt.mpr hd2, Nat.not_lt.mpr hh,
        hlt, hblk, h1m, hmax0, hcnt,
        Nat.not_le.mpr (show (1 : Nat) < cfg.maxProofsPerDevice by omega)]
  · intro b2 hb2 hw hd2 hh hmax hcnt hblk hblk2
    have hlt : st.proofCount d < cfg.maxProofsPerDevice := by omega
    have hmax0 : ¬ cfg.maxProofsPerDevice = 0 := by omega
    have h1m : (1 : Nat) % U64_MOD = 1 := by norm_num [U64_MOD]
    have h2m : (2 : Nat) % U64_MOD = 2 := by norm_num [U64_MOD]
    have hb2' : ¬ b2 = block := fun hcon => hb2 hcon.symm
    constructor
    · simp [submit_proof, store_proof, hw, Nat.not_lt.mpr hd2, Nat.not_lt.mpr hh,
        hlt, hblk, hblk2, h1m, hb2', hmax0, hcnt,
        Nat.not_le.mpr (show (1 : Nat) < cfg.maxProofsPerDevice by omega)]
    · simp [submit_proof, store_proof, hw, Nat.not_lt.mpr hd2, Nat.not_lt.mpr hh,
        hlt, hblk, hblk2, h1m, h2m, hb2', hmax0, hcnt,
        Nat.not_le.mpr (show (1 : Nat) < cfg.maxProofsPerDevice by omega)]

/-- Witness for C5: for a fresh device, proofs at blocks 1 and 2 both land
and the device's proof count reaches 2. -/
theorem C5_submit_proof_validation_witness :
    (submit_proof tpCfgRt (submit_proof tpCfgRt initTP 1 0 [0] [1] 1 10 20).1 2 0 [0] [1] 1 10
        20).1.proofCount [0] = 2 :=
  ((C5_submit_proof_validation tpCfgRt initTP 1 0 [0] [1] 1 10 20).2.2.2.2.2.2.2 2
    (by decide) (by decide) (by decide) (by decide) (by decide) (by decide) rfl rfl).2

/-- Claim C6: `get_proofs_in_window` returns exactly the stored records
whose window is fully contained in the query window — `window_start ≥
start` and `window_end ≤ end`, containment rather than overlap.  With
stored windows `[1000,2000]`, `[2000,3000]`, `[5000,6000]`, the query
`[1000,3000]` returns 2 records, `[4000,7000]` returns 1, and `[0,10000]`
returns 3. -/
theorem C6_window_containment :
    (∀ (st : TPState) (d : DeviceId) (s e : Nat) (m : ProofMetadata),
      m ∈ get_proofs_in_window st d s e ↔
        ((∃ i, i < st.proofCount d ∧ st.proofs d i = some m) ∧
          s ≤ m.window_start ∧ m.window_end ≤ e)) ∧
    (get_proofs_in_window c6state [1] 1000 3000).length = 2 ∧
    (get_proofs_in_window c6state [1] 4000 7000).length = 1 ∧
    (get_proofs_in_window c6state [1] 0 10000).length = 3 := by
  refine ⟨?_, by decide, by decide, by decide⟩
  intro st d s e m
  simp only [get_proofs_in_window, List.mem_filter, List.mem_filterMap, List.mem_range,
    Bool.and_eq_true, decide_eq_true_eq, ge_iff_le]

lemma batch_fold_fst_congr (cfg : TPConfig) (block ts : Nat) :
    ∀ (l : List BatchEntry) (p q : TPState × Nat), p.1 = q.1 →
      (l.foldl (batch_fold_step cfg block ts) p).1 =
        (l.foldl (batch_fold_step cfg block ts) q).1 := by
  intro l
  induction l with
  | nil => intro p q hpq; simpa using hpq
  | cons e rest ih =>
    intro p q hpq
    simp only [List.foldl_cons]
    exact ih _ _ (by simp [batch_fold_step, hpq])

/-- Counterexample to claim C3 as stated: the signed `submit_batch_proofs`
on a 3-entry batch whose middle entry has `window_start ≥ window_end`
stores exactly 2 proofs, yet its summary event reports `batch_len = 3`,
not the number of entries actually accepted. -/
theorem C3_batch_summary_cex :
    (submit_batch_proofs tpCfgRt initTP 1 0 b3entries).2 = Except.ok 3 ∧
    (submit_batch_proofs tpCfgRt initTP 1 0 b3entries).1.totalProofs = 2 ∧
    (submit_batch_proofs tpCfgRt initTP 1 0 b3entries).2 ≠ Except.ok 2 := by
  decide

/-- Claim C3 (amended): a non-empty batch of at most `MaxBatchSize`
entries always succeeds as a call; each entry is validated with exactly
the rules and effect of `submit_proof`, with invalid or duplicate entries
silently skipped and mutations from earlier entries visible to later ones.
The summary event of `submit_batch_proofs_unsigned` reports the number of
entries actually accepted, while the signed `submit_batch_proofs` reports
the total number of entries submitted. -/
theorem C3_batch_summary_amended (cfg : TPConfig) (st : TPState) (block ts : Nat)
    (entries : List BatchEntry) (hne : entries.length ≠ 0)
    (hlen : entries.length ≤ cfg.maxBatchSize) :
    submit_batch_proofs cfg st block ts entries =
      ((run_batch cfg block ts st entries).1, Except.ok entries.length) ∧
    submit_batch_proofs_unsigned cfg st block ts entries =
      ((run_batch cfg block ts st entries).1,
        Except.ok (run_batch cfg block ts st entries).2) ∧
    (∀ (st0 : TPState) (e : BatchEntry),
      batch_entry_step cfg block ts st0 e =
        ((submit_proof cfg st0 block ts e.1 e.2.1 e.2.2.1 e.2.2.2.1 e.2.2.2.2).1,
          (submit_proof cfg st0 block ts e.1 e.2.1 e.2.2.1 e.2.2.2.1 e.2.2.2.2).2.isOk)) ∧
    (∀ (st0 : TPState) (e : BatchEntry) (rest : List BatchEntry),
      (run_batch cfg block ts st0 (e :: rest)).1 =
        (run_batch cfg block ts (batch_entry_step cfg block ts st0 e).1 rest).1) ∧
    ((submit_batch_proofs_unsigned tpCfgRt initTP 1 0 b3entries).2 = Except.ok 2 ∧
      (submit_batch_proofs_unsigned tpCfgRt initTP 1 0 b3entries).1.totalProofs = 2) := by
  refine ⟨?_, ?_, ?_, ?_, by decide⟩
  · simp [submit_batch_proofs, hne, Nat.not_lt.mpr hlen]
  · simp [submit_batch_proofs_unsigned, hne, Nat.not_lt.mpr hlen]
  · intro st0 e
    obtain ⟨d2, h2, rc2, ws2, we2⟩ := e
    simp only [batch_entry_step, submit_proof, ge_iff_le, ← Nat.not_lt]
    split_ifs <;> rfl
  · intro st0 e rest
    simp only [run_batch, List.foldl_cons]
    exact batch_fold_fst_congr cfg block ts rest _ _ (by simp [batch_fold_step])

/-- Witness for the amended C3: the two batch variants on the concrete
3-entry batch, where the unsigned event reports the 2 accepted entries. -/
theorem C3_batch_summary_amended_witness :
    submit_batch_proofs tpCfgRt initTP 1 0 b3entries =
      ((run_batch tpCfgRt 1 0 initTP b3entries).1, Except.ok b3entries.length) :=
  (C3_batch_summary_amended tpCfgRt initTP 1 0 b3entries (by decide) (by decide)).1

/-- Claim C9: the admission predicate `validate_unsigned` is a pure
function of the source and the call — by construction it takes no
`TPState`, mirroring that the Rust implementation reads and writes no
storage item.  It rejects every source other than `Local` / `InBlock`
with `BadSigner`; for a single unsigned proof it checks only the
device-id length, the proof-hash length and `window_start < window_end`
(accepting whenever those hold, with dedup tag `(device_id, proof_hash)`);
and for a batch it accepts any non-empty batch within `MaxBatchSize` with
a dedup tag built only from the first entry's device id and the last
entry's proof hash. -/
theorem C9_validate_unsigned_stateless (cfg : TPConfig) :
    (∀ c, validate_unsigned cfg TxSource.External c = Except.error InvalidTx.BadSigner) ∧
    (∀ src, src = TxSource.Local ∨ src = TxSource.InBlock →
      ∀ (d h : DeviceId) (rc ws we : Nat),
        (d.length > cfg.maxDeviceIdLength →
          validate_unsigned cfg src (TPCall.proof_unsigned d h rc ws we) =
            Except.error (InvalidTx.Custom 1)) ∧
        (d.length ≤ cfg.maxDeviceIdLength → h.length > cfg.maxProofLength →
          validate_unsigned cfg src (TPCall.proof_unsigned d h rc ws we) =
            Except.error (InvalidTx.Custom 2)) ∧
        (d.length ≤ cfg.maxDeviceIdLength → h.length ≤ cfg.maxProofLength → we ≤ ws →
          validate_unsigned cfg src (TPCall.proof_unsigned d h rc ws we) =
            Except.error (InvalidTx.Custom 3)) ∧
        (d.length ≤ cfg.maxDeviceIdLength → h.length ≤ cfg.maxProofLength → ws < we →
          validate_unsigned cfg src (TPCall.proof_unsigned d h rc ws we) =
            Except.ok ⟨"TelemetryProof", 100, 5, (d, h), false⟩)) ∧
    (∀ src, src = TxSource.Local ∨ src = TxSource.InBlock →
      ∀ entries : List BatchEntry, entries ≠ [] → entries.length ≤ cfg.maxBatchSize →
        validate_unsigned cfg src (TPCall.batch_unsigned entries) =
          Except.ok ⟨"TelemetryProofBatch", 100, 5,
            ((entries.head?.map (fun p => p.1)).getD [],
              (entries.getLast?.map (fun p => p.2.1)).getD []), false⟩) ∧
    (∀ src, src = TxSource.Local ∨ src = TxSource.InBlock →
      validate_unsigned cfg src TPCall.other = Except.error InvalidTx.Call) := by
  refine ⟨?_, ?_, ?_, ?_⟩
  · intro c
    simp [validate_unsigned]
  · intro src hsrc d h rc ws we
    refine ⟨?_, ?_, ?_, ?_⟩
    · intro h1
      simp [validate_unsigned, hsrc, h1]
    · intro h1 h2
      simp [validate_unsigned, hsrc, Nat.not_lt.mpr h1, h2]
    · intro h1 h2 h3
      simp [validate_unsigned, hsrc, Nat.not_lt.mpr h1, Nat.not_lt.mpr h2, h3]
    · intro h1 h2 h3
      simp [validate_unsigned, hsrc, Nat.not_lt.mpr h1, Nat.not_lt.mpr h2, Nat.not_le.mpr h3]
  · intro src hsrc entries hne hlen
    simp [validate_unsigned, hsrc, List.isEmpty_iff, hne, Nat.not_lt.mpr hlen]
  · intro src hsrc
    simp [validate_unsigned, hsrc]

/-- Witness for C9: the batch tag of the concrete 3-entry batch is the
first entry's device id paired with the last entry's proof hash. -/
theorem C9_validate_unsigned_stateless_witness :
    validate_unsigned tpCfgRt TxSource.Local (TPCall.batch_unsigned b3entries) =
      Except.ok ⟨"TelemetryProofBatch", 100, 5, ([1], [30]), false⟩ :=
  (C9_validate_unsigned_stateless tpCfgRt).2.2.1 TxSource.Local (Or.inl rfl) b3entries
    (by decide) (by decide)

lemma dense_init : Dense initTP := by
  intro d i
  simp [Dense, initTP]

lemma dense_store_proof (st : TPState) (block ts : Nat) (d h : DeviceId)
    (rc ws we : Nat) (hD : Dense st) (hc : st.proofCount d + 1 < U64_MOD) :
    Dense (store_proof st block ts d h rc ws we) := by
  intro d2 i
  simp only [store_proof]
  by_cases hd2 : d2 = d
  · subst hd2
    by_cases hi : i = st.proofCount d2
    · simp [hi, Nat.mod_eq_of_lt hc, Nat.lt_succ_self]
    · simp [hi, Nat.mod_eq_of_lt hc, hD d2 i]
      omega
  · simp [hd2, hD d2 i]

lemma dense_submit_proof (cfg : TPConfig) (st : TPState) (block ts : Nat)
    (d h : DeviceId) (rc ws we : Nat) (hD : Dense st)
    (hmax : cfg.maxProofsPerDevice < U64_MOD) :
    Dense (submit_proof cfg st block ts d h rc ws we).1 := by
  simp only [submit_proof]
  split_ifs
  all_goals try exact hD
  exact dense_store_proof st block ts d h rc ws we hD (by omega)

lemma dense_batch_entry_step (cfg : TPConfig) (block ts : Nat) (st : TPState)
    (e : BatchEntry) (hD : Dense st) (hmax : cfg.maxProofsPerDevice < U64_MOD) :
    Dense (batch_entry_step cfg block ts st e).1 := by
  simp only [batch_entry_step]
  split_ifs
  all_goals try exact hD
  exact dense_store_proof st block ts e.1 e.2.1 e.2.2.1 e.2.2.2.1 e.2.2.2.2 hD (by omega)

lemma dense_batch_foldl (cfg : TPConfig) (block ts : Nat)
    (hmax : cfg.maxProofsPerDevice < U64_MOD) :
    ∀ (l : List BatchEntry) (p : TPState × Nat), Dense p.1 →
      Dense (l.foldl (batch_fold_step cfg block ts) p).1 := by
  intro l
  induction l with
  | nil => intro p hp; simpa using hp
  | cons e rest ih =>
    intro p hp
    simp only [List.foldl_cons]
    exact ih _ (dense_batch_entry_step cfg block ts p.1 e hp hmax)

lemma dense_applyOp (cfg : TPConfig) (hmax : cfg.maxProofsPerDevice < U64_MOD)
    (st : TPState) (op : TPOp) (hD : Dense st) : Dense (applyOp cfg st op) := by
  cases op with
  | submit block ts d h rc ws we =>
    exact dense_submit_proof cfg st block ts d h rc ws we hD hmax
  | submitUnsigned block ts d h rc ws we =>
    exact dense_submit_proof cfg st block ts d h rc ws we hD hmax
  | batch block ts entries =>
    simp only [applyOp, submit_batch_proofs]
    split_ifs
    · exact hD
    · exact hD
    · exact dense_batch_foldl cfg block ts hmax entries (st, 0) hD
  | batchUnsigned block ts entries =>
    simp only [applyOp, submit_batch_proofs_unsigned]
    split_ifs
    · exact hD
    · exact hD
    · exact dense_batch_foldl cfg block ts hmax entries (st, 0) hD

lemma dense_runOps (cfg : TPConfig) (hmax : cfg.maxProofsPerDevice < U64_MOD)
    (ops : List TPOp) : Dense (runOps cfg ops) := by
  have hgen : ∀ (l : List TPOp) (st : TPState), Dense st →
      Dense (l.foldl (applyOp cfg) st) := by
    intro l
    induction l with
    | nil => intro st hst; simpa using hst
    | cons op rest ih =>
      intro st hst
      simp only [List.foldl_cons]
      exact ih _ (dense_applyOp cfg hmax st op hst)
  exact hgen ops initTP dense_init

lemma proofCount_mono_store (st : TPState) (block ts : Nat) (d h : DeviceId)
    (rc ws we : Nat) (hc : st.proofCount d + 1 < U64_MOD) (d2 : DeviceId) :
    st.proofCount d2 ≤ (store_proof st block ts d h rc ws we).proofCount d2 := by
  simp only [store_proof]
  by_cases hd2 : d2 = d
  · subst hd2
    simp [Nat.mod_eq_of_lt hc]
  · simp [hd2]

lemma proofCount_mono_batch_entry_step (cfg : TPConfig) (block ts : Nat) (st : TPState)
    (e : BatchEntry) (hmax : cfg.maxProofsPerDevice < U64_MOD) (d2 : DeviceId) :
    st.proofCount d2 ≤ (batch_entry_step cfg block ts st e).1.proofCount d2 := by
  simp only [batch_entry_step]
  split_ifs
  all_goals try exact Nat.le.refl
  exact proofCount_mono_store st block ts e.1 e.2.1 e.2.2.1 e.2.2.2.1 e.2.2.2.2
    (by omega) d2

lemma proofCount_mono_batch_foldl (cfg : TPConfig) (block ts : Nat)
    (hmax : cfg.maxProofsPerDevice < U64_MOD) :
    ∀ (l : List BatchEntry) (p : TPState × Nat) (d2 : DeviceId),
      p.1.proofCount d2 ≤ (l.foldl (batch_fold_step cfg block ts) p).1.proofCount d2 := by
  intro l
  induction l with
  | nil => intro p d2; simp
  | cons e rest ih =>
    intro p d2
    simp only [List.foldl_cons]
    exact le_trans (proofCount_mono_batch_entry_step cfg block ts p.1 e hmax d2)
      (ih (batch_fold_step cfg block ts p e) d2)

lemma proofCount_mono_applyOp (cfg : TPConfig) (hmax : cfg.maxProofsPerDevice < U64_MOD)
    (st : TPState) (op : TPOp) (d2 : DeviceId) :
    st.proofCount d2 ≤ (applyOp cfg st op).proofCount d2 := by
  cases op with
  | submit block ts d h rc ws we =>
    simp only [applyOp, submit_proof]
    split_ifs
    all_goals try exact Nat.le.refl
    exact proofCount_mono_store st block ts d h rc ws we (by omega) d2
  | submitUnsigned block ts d h rc ws we =>
    simp only [applyOp, submit_proof_unsigned, submit_proof]
    split_ifs
    all_goals try exact Nat.le.refl
    exact proofCount_mono_store st block ts d h rc ws we (by omega) d2
  | batch block ts entries =>
    simp only [applyOp, submit_batch_proofs]
    split_ifs
    all_goals try exact Nat.le.refl
    exact proofCount_mono_batch_foldl cfg block ts hmax entries (st, 0) d2
  | batchUnsigned block ts entries =>
    simp only [applyOp, submit_batch_proofs_unsigned]
    split_ifs
    all_goals try exact Nat.le.refl
    exact proofCount_mono_batch_foldl cfg block ts hmax entries (st, 0) d2

lemma filterMap_range_of_isSome {α : Type} (n : Nat) (f : Nat → Option α)
    (hf : ∀ i, i < n → (f i).isSome) :
    ((List.range n).filterMap f).length = n ∧
    (∀ i, i < n → ((List.range n).filterMap f)[i]? = f i) := by
  induction n with
  | zero => simp
  | succ n ih =>
    have hf2 : ∀ i, i < n → (f i).isSome := fun i hi => hf i (by omega)
    obtain ⟨ihlen, ihget⟩ := ih hf2
    obtain ⟨a, ha⟩ := Option.isSome_iff_exists.mp (hf n (by omega))
    refine ⟨?_, ?_⟩
    · simp [List.range_succ, List.filterMap_append, ha, ihlen]
    · intro i hi
      rw [List.range_succ, List.filterMap_append]
      by_cases hin : i < n
      · rw [List.getElem?_append_left (by rw [ihlen]; exact hin)]
        exact ihget i hin
      · have hieq : i = n := by omega
        subst hieq
        rw [List.getElem?_append_right (by rw [ihlen])]
        simp [ihlen, ha]

lemma get_device_proofs_dense (st : TPState) (hD : Dense st) (d : DeviceId) :
    (get_device_proofs st d).length = st.proofCount d ∧
    (∀ i, (get_device_proofs st d)[i]? = st.proofs d i) := by
  have hf : ∀ i, i < st.proofCount d → (st.proofs d i).isSome :=
    fun i hi => (hD d i).mpr hi
  obtain ⟨hlen, hget⟩ :=
    filterMap_range_of_isSome (st.proofCount d) (fun i => st.proofs d i) hf
  refine ⟨hlen, fun i => ?_⟩
  by_cases hi : i < st.proofCount d
  · exact hget i hi
  · have hlen2 : (get_device_proofs st d).length ≤ i := by
      simp only [get_device_proofs]
      rw [hlen]
      omega
    rw [List.getElem?_eq_none hlen2]
    have hnone : ¬ (st.proofs d i).isSome = true := by
      rw [hD d i]
      omega
    exact (Option.not_isSome_iff_eq_none.mp hnone).symm

lemma proof_exists_iff_dense (st : TPState) (hD : Dense st) (d h : DeviceId) :
    proof_exists st d h = true ↔
      ∃ i m, st.proofs d i = some m ∧ m.proof_hash = h := by
  simp only [proof_exists, List.any_eq_true, List.mem_range]
  constructor
  · rintro ⟨i, hi, hmatch⟩
    cases hv : st.proofs d i with
    | none => rw [hv] at hmatch; simp at hmatch
    | some m =>
      rw [hv] at hmatch
      simp only [beq_iff_eq] at hmatch
      exact ⟨i, m, hv, hmatch⟩
  · rintro ⟨i, m, hv, hh⟩
    have hi : i < st.proofCount d := (hD d i).mp (by simp [hv])
    exact ⟨i, hi, by simp [hv, hh]⟩

/-- Claim C10 (implicit): along any sequence of calls from genesis the
proof store is dense — `Proofs[device][i]` holds a record exactly for the
indices below `ProofCount[device]` — and `ProofCount` never decreases
under any call; hence `get_device_proofs` returns exactly
`ProofCount[device]` records in index order, and the linear scan of
`proof_exists` (the same loop `verify_proof` runs) answers true exactly
when some stored proof of the device carries the queried hash.  The
hypothesis reflects that `MaxProofsPerDevice` is a `u32`, so the wrapping
`u64` counter increment is exact. -/
theorem C10_proof_store_dense (cfg : TPConfig) (hmax : cfg.maxProofsPerDevice < U32_MOD)
    (ops : List TPOp) :
    Dense (runOps cfg ops) ∧
    (∀ d, (get_device_proofs (runOps cfg ops) d).length = (runOps cfg ops).proofCount d) ∧
    (∀ d i, (get_device_proofs (runOps cfg ops) d)[i]? = (runOps cfg ops).proofs d i) ∧
    (∀ (st : TPState) (op : TPOp) (d : DeviceId),
      st.proofCount d ≤ (applyOp cfg st op).proofCount d) ∧
    (∀ d h, proof_exists (runOps cfg ops) d h = true ↔
      ∃ i m, (runOps cfg ops).proofs d i = some m ∧ m.proof_hash = h) := by
  have hmax64 : cfg.maxProofsPerDevice < U64_MOD := by
    have : U32_MOD < U64_MOD := by norm_num [U32_MOD, U64_MOD]
    omega
  have hD := dense_runOps cfg hmax64 ops
  refine ⟨hD, ?_, ?_, ?_, ?_⟩
  · exact fun d => (get_device_proofs_dense (runOps cfg ops) hD d).1
  · exact fun d i => (get_device_proofs_dense (runOps cfg ops) hD d).2 i
  · exact fun st op d => proofCount_mono_applyOp cfg hmax64 st op d
  · exact fun d h => proof_exists_iff_dense (runOps cfg ops) hD d h

/-- Witness for C10: density of the store after one concrete submission
under the runtime configuration. -/
theorem C10_proof_store_dense_witness :
    Dense (runOps tpCfgRt [TPOp.submit 1 0 [0] [1] 1 10 20]) :=
  (C10_proof_store_dense tpCfgRt (by norm_num [tpCfgRt, U32_MOD])
    [TPOp.submit 1 0 [0] [1] 1 10 20]).1

end AredEdge
